import Mathlib

/-!
Verification development for the personal-assistant repository.

The data model is embedded from `src/mobile/src/types/index.ts`.  Client-side
logic is embedded from `src/mobile/src/services/api.ts`, the task store
(`useTaskStore`), the task-detail screen and the assistant screen.  The backend
decision layer (lifecycle controller, scoring engine, recommendation engine,
agent orchestrator, capture persistence) is not among the source files — only
its README, SQL schema and callers are — so those components are modelled from
the specification, as flagged in the corresponding doc comments.

Timestamps (ISO strings in the source) are embedded as integers (epoch
minutes); JSON numbers are embedded as rationals.
-/

namespace PA

/-- Task life-area tag, from `TaskDomain` in `src/mobile/src/types/index.ts`. -/
inductive TaskDomain
  | family
  | home
  | job
  | company
  | personal
deriving DecidableEq, Repr, Fintype

/-- Lifecycle status, from `TaskStatus` in `src/mobile/src/types/index.ts`. -/
inductive TaskStatus
  | captured
  | parsed
  | triaged
  | planned
  | scheduled
  | in_progress
  | done
  | cancelled
deriving DecidableEq, Repr, Fintype

/-- Priority tier, from `Priority` in `src/mobile/src/types/index.ts`. -/
inductive Priority
  | critical
  | high
  | medium
  | low
  | someday
deriving DecidableEq, Repr, Fintype

/-- From `SubTask` in `src/mobile/src/types/index.ts`. -/
structure SubTask where
  id : String
  taskId : String
  title : String
  status : TaskStatus
  orderIndex : Nat
deriving DecidableEq, Repr

/-- The central task entity, from `Task` in `src/mobile/src/types/index.ts`.
The open `aiMetadata` map is embedded as an association list. -/
structure Task where
  id : String
  userId : String
  title : String
  description : Option String
  domain : TaskDomain
  status : TaskStatus
  priority : Priority
  priorityScore : ℚ
  importance : Nat
  urgency : Nat
  dueDate : Option Int
  estimatedDurationMin : Option Nat
  createdAt : Int
  updatedAt : Int
  source : String
  requiresCalendarBlock : Bool
  linkedCalendarEventId : Option String
  linkedEmailThreadId : Option String
  aiMetadata : List (String × String)
  subtasks : List SubTask
deriving DecidableEq, Repr

/-! ## Lifecycle controller -/

/-- Modelled from the spec: the backend Lifecycle Controller of §4.2 is not
among the source files; this is its transition table.  Rows: captured → parsed,
parsed → triaged, triaged → planned, planned → scheduled,
triaged/planned/scheduled → in_progress, in_progress → done, and any
non-terminal state → cancelled. -/
def allowedTransition : TaskStatus → TaskStatus → Bool
  | .captured, .parsed => true
  | .parsed, .triaged => true
  | .triaged, .planned => true
  | .planned, .scheduled => true
  | .triaged, .in_progress => true
  | .planned, .in_progress => true
  | .scheduled, .in_progress => true
  | .in_progress, .done => true
  | .captured, .cancelled => true
  | .parsed, .cancelled => true
  | .triaged, .cancelled => true
  | .planned, .cancelled => true
  | .scheduled, .cancelled => true
  | .in_progress, .cancelled => true
  | _, _ => false

/-- Error kind raised by the lifecycle controller on an illegal transition,
naming the attempted source and target (spec §4.2 / §7). -/
inductive TransitionError
  | invalidTransition (src tgt : TaskStatus)
deriving DecidableEq, Repr

/-- Modelled from the spec: the backend Lifecycle Controller entry point.  A
transition in the table updates the status; any other attempt fails with
`InvalidTransition` and produces no updated task. -/
def applyTransition (t : Task) (tgt : TaskStatus) : Except TransitionError Task :=
  if allowedTransition t.status tgt then
    Except.ok { t with status := tgt }
  else
    Except.error (TransitionError.invalidTransition t.status tgt)

/-- The status requested by the primary button of the task detail screen
(`src/unnamed/part_003`, both variants): for a task already done it requests
`in_progress` (the Reopen button), otherwise `done`. -/
def taskDetailPrimaryTarget (t : Task) : TaskStatus :=
  if t.status = TaskStatus.done then TaskStatus.in_progress else TaskStatus.done

/-- All status changes reachable from the task detail screen
(`src/unnamed/part_003`): the primary button, plus the secondary
Start-working button, which is rendered only when the task is neither done
nor already in progress and requests `in_progress`. -/
def taskDetailStatusRequests (t : Task) : List TaskStatus :=
  [taskDetailPrimaryTarget t] ++
    (if t.status ≠ TaskStatus.done ∧ t.status ≠ TaskStatus.in_progress then
      [TaskStatus.in_progress]
    else [])

/-! ## Scoring engine -/

/-- Modelled from the spec: tunable configuration of the Scoring Engine
(§4.1) and the recommendation adjustment (§4.5), absent from the source
files.  Weights apply to the four normalized sub-scores; `typicalDurationMin`
normalizes the effort component; `proximityHorizonMin` is the window over
which an approaching due date boosts urgency; `noEstimatePenalty` is the
fixed deduction for tasks lacking a duration estimate. -/
structure ScoreConfig where
  urgencyWeight : ℚ
  importanceWeight : ℚ
  effortWeight : ℚ
  domainWeight : ℚ
  typicalDurationMin : ℚ
  proximityHorizonMin : ℚ
  noEstimatePenalty : ℚ
deriving DecidableEq, Repr

/-- Modelled from the spec: pinned default values of the tunable scoring
configuration (weights sum to 1; horizon of seven days in minutes). -/
def defaultScoreConfig : ScoreConfig where
  urgencyWeight := 2/5
  importanceWeight := 3/10
  effortWeight := 3/20
  domainWeight := 3/20
  typicalDurationMin := 30
  proximityHorizonMin := 10080
  noEstimatePenalty := 1/20

/-- Modelled from the spec: the configurable per-domain multiplier table of
§4.1, each entry in [0,1]. -/
def domainWeightTable : TaskDomain → ℚ
  | .family => 1
  | .job => 9/10
  | .company => 4/5
  | .home => 7/10
  | .personal => 3/5

/-- Modelled from the spec: the due-date proximity bonus of §4.1 — zero
without a due date, increasing monotonically as the gap to the due date
shrinks, saturating at 1 once the task is due or overdue. -/
def proximityBonus (cfg : ScoreConfig) (dueDate : Option Int) (now : Int) : ℚ :=
  match dueDate with
  | none => 0
  | some due =>
      if due ≤ now then 1
      else max 0 ((cfg.proximityHorizonMin - ((due : ℚ) - (now : ℚ))) / cfg.proximityHorizonMin)

/-- Modelled from the spec: urgency sub-score — `urgency/5` plus the
proximity bonus, clamped to 1. -/
def urgencyComponent (cfg : ScoreConfig) (urgency : Nat) (dueDate : Option Int)
    (now : Int) : ℚ :=
  min 1 ((urgency : ℚ) / 5 + proximityBonus cfg dueDate now)

/-- Modelled from the spec: importance sub-score `importance/5`. -/
def importanceComponent (importance : Nat) : ℚ :=
  (importance : ℚ) / 5

/-- Modelled from the spec: effort-adjusted sub-score — inverse of the
estimated duration normalized against the typical task duration, a missing
estimate counting as typical. -/
def effortComponent (cfg : ScoreConfig) (estimatedDurationMin : Option Nat) : ℚ :=
  let d : ℚ :=
    match estimatedDurationMin with
    | some e => (e : ℚ)
    | none => cfg.typicalDurationMin
  cfg.typicalDurationMin / (cfg.typicalDurationMin + d)

/-- Modelled from the spec: the numeric priority score of §4.1, a weighted
sum of the four sub-scores. -/
def scoreValue (cfg : ScoreConfig) (t : Task) (now : Int) : ℚ :=
  cfg.urgencyWeight * urgencyComponent cfg t.urgency t.dueDate now
    + cfg.importanceWeight * importanceComponent t.importance
    + cfg.effortWeight * effortComponent cfg t.estimatedDurationMin
    + cfg.domainWeight * domainWeightTable t.domain

/-- Modelled from the spec: fixed tier thresholds of §4.1
(≥ 0.8 critical, ≥ 0.6 high, ≥ 0.4 medium, ≥ 0.2 low, else someday). -/
def tierOfScore (s : ℚ) : Priority :=
  if 4/5 ≤ s then Priority.critical
  else if 3/5 ≤ s then Priority.high
  else if 2/5 ≤ s then Priority.medium
  else if 1/5 ≤ s then Priority.low
  else Priority.someday

/-- Rank of a tier, someday lowest, critical highest. -/
def priorityRank : Priority → Nat
  | .someday => 0
  | .low => 1
  | .medium => 2
  | .high => 3
  | .critical => 4

/-- The higher-ranked of two tiers. -/
def maxPriority (a b : Priority) : Priority :=
  if priorityRank a ≤ priorityRank b then b else a

/-- A task is overdue when its due date lies strictly before now. -/
def isOverdue (t : Task) (now : Int) : Bool :=
  match t.dueDate with
  | some due => decide (due < now)
  | none => false

/-- Modelled from the spec: tier assignment of §4.1 — thresholds on the
numeric score, with overdue tasks forced to at least high. -/
def scoreTier (cfg : ScoreConfig) (t : Task) (now : Int) : Priority :=
  let base := tierOfScore (scoreValue cfg t now)
  if isOverdue t now then maxPriority base Priority.high else base

/-- Modelled from the spec: the pure scoring function
`score(task, context) -> (numeric_score, tier)` of §4.1. -/
def score (cfg : ScoreConfig) (t : Task) (now : Int) : ℚ × Priority :=
  (scoreValue cfg t now, scoreTier cfg t now)

/-! ## Recommendation engine -/

/-- Energy level of the "what now" context (§4.5). -/
inductive EnergyLevel
  | low
  | medium
  | high
deriving DecidableEq, Repr, Fintype

/-- Location of the "what now" context (§4.5). -/
inductive LocationKind
  | home
  | office
  | outside
deriving DecidableEq, Repr, Fintype

/-- The "what now" context of §4.5: current time, optional available
duration, optional energy level, optional location. -/
structure RecContext where
  now : Int
  availableDurationMin : Option Int
  energyLevel : Option EnergyLevel
  locationKind : Option LocationKind
deriving DecidableEq, Repr

/-- A lifecycle status is terminal when it is done or cancelled. -/
def isTerminalStatus (s : TaskStatus) : Bool :=
  decide (s = TaskStatus.done) || decide (s = TaskStatus.cancelled)

/-- Modelled from the spec: step 2 of §4.5 — a task passes the duration
filter unless it has an estimate exceeding the supplied available duration;
with no available duration, or no estimate, every task passes. -/
def durationFits (avail : Option Int) (t : Task) : Bool :=
  match avail, t.estimatedDurationMin with
  | some a, some e => decide ((e : Int) ≤ a)
  | _, _ => true

/-- Modelled from the spec: step 1 and 2 of §4.5 — the candidate set is the
non-terminal tasks passing the duration filter. -/
def candidateTasks (ctx : RecContext) (tasks : List Task) : List Task :=
  tasks.filter fun t =>
    !isTerminalStatus t.status && durationFits ctx.availableDurationMin t

/-- Modelled from the spec: energy part of the context-fit table of §4.5 —
demanding work-domain tasks are deprioritized at low energy. -/
def energyFitFactor : Option EnergyLevel → TaskDomain → ℚ
  | some .low, .job => 7/10
  | some .low, .company => 7/10
  | _, _ => 1

/-- Modelled from the spec: location part of the context-fit table of §4.5 —
home-domain tasks are deprioritized away from home, office-domain work away
from the office. -/
def locationFitFactor : Option LocationKind → TaskDomain → ℚ
  | some .office, .home => 4/5
  | some .outside, .home => 4/5
  | some .home, .job => 9/10
  | some .outside, .job => 9/10
  | _, _ => 1

/-- Modelled from the spec: step 4 of §4.5 — the base score shrunk by the
context-fit factors, minus the fixed penalty when the task lacks a duration
estimate. -/
def adjustedScore (cfg : ScoreConfig) (ctx : RecContext) (t : Task) : ℚ :=
  scoreValue cfg t ctx.now
      * energyFitFactor ctx.energyLevel t.domain
      * locationFitFactor ctx.locationKind t.domain
    - (if t.estimatedDurationMin.isNone then cfg.noEstimatePenalty else 0)

/-- Earliest-first comparison of optional due dates, a missing due date
sorting last. -/
def dueBefore : Option Int → Option Int → Bool
  | some a, some b => decide (a < b)
  | some _, none => true
  | none, _ => false

/-- Modelled from the spec: ranking order of step 5 of §4.5 — adjusted score
descending, ties broken by earliest due date, then by oldest creation time. -/
def ranksBefore (cfg : ScoreConfig) (ctx : RecContext) (t1 t2 : Task) : Bool :=
  let s1 := adjustedScore cfg ctx t1
  let s2 := adjustedScore cfg ctx t2
  decide (s2 < s1) ||
    (decide (s1 = s2) &&
      (dueBefore t1.dueDate t2.dueDate ||
        (decide (t1.dueDate = t2.dueDate) && decide (t1.createdAt < t2.createdAt))))

/-- Insert a task into an already ranked list, before the first element it
ranks ahead of. -/
def insertRanked (before : Task → Task → Bool) (t : Task) : List Task → List Task
  | [] => [t]
  | x :: xs => if before t x then t :: x :: xs else x :: insertRanked before t xs

/-- Insertion sort by the given ranking order. -/
def sortRanked (before : Task → Task → Bool) : List Task → List Task
  | [] => []
  | x :: xs => insertRanked before x (sortRanked before xs)

/-- One returned recommendation (shape of `WhatNowResponse.recommendations`
in `src/mobile/src/types/index.ts`). -/
structure Recommendation where
  task : Task
  reason : String
  estimatedTime : ℚ
  confidence : ℚ
deriving DecidableEq, Repr

/-- The recommendation list returned by `recommendNow` (shape of
`WhatNowResponse` in `src/mobile/src/types/index.ts`). -/
structure RecommendationList where
  recommendations : List Recommendation
  reasoning : String
  contextSummary : String
deriving DecidableEq, Repr

/-- Summary returned when no actionable task exists. -/
def noActionableSummary : String :=
  "No actionable tasks right now."

/-- Modelled from the spec: the short natural-language justification of step
6 of §4.5, derived from the dominating factor. -/
def reasonFor (t : Task) (now : Int) : String :=
  if isOverdue t now then "Overdue and worth finishing first."
  else "Best fit for your current context."

/-- Modelled from the spec: the Recommendation Engine `recommendNow` of §4.5,
absent from the source files.  Filters to the candidate set, ranks by
adjusted score, returns the top `k` with reasons, and on an empty candidate
set returns an empty list with a summary saying nothing is actionable —
never an error. -/
def recommendNow (cfg : ScoreConfig) (ctx : RecContext) (tasks : List Task)
    (k : Nat) : RecommendationList :=
  let cands := candidateTasks ctx tasks
  if cands.isEmpty then
    { recommendations := []
      reasoning := ""
      contextSummary := noActionableSummary }
  else
    let ranked := sortRanked (ranksBefore cfg ctx) cands
    { recommendations :=
        (ranked.take k).map fun t =>
          { task := t
            reason := reasonFor t ctx.now
            estimatedTime := ((t.estimatedDurationMin.getD 30 : Nat) : ℚ)
            confidence := max 0 (min 1 (adjustedScore cfg ctx t)) }
      reasoning := ""
      contextSummary := "Ranked by fit with your time, energy and location." }

/-! ## Agent orchestrator -/

/-- Outcome of a single provider attempt (spec §4.3): a hard timeout, a
provider failure with an error message, or a successful structured output. -/
inductive ProviderOutcome (α : Type)
  | timeout
  | failure (err : String)
  | success (out : α)
deriving DecidableEq, Repr

/-- One row of the append-only AI Interaction Log (spec §3): agent kind,
attempt index, and whether the attempt succeeded. -/
structure LogRecord where
  agentKind : String
  attempt : Nat
  succeeded : Bool
deriving DecidableEq, Repr

/-- Result of an Orchestrator invocation (spec §4.3): the validated
structured result, or a typed `AgentUnavailable` failure carrying the last
error — never a raised exception. -/
inductive InvokeOutcome (α : Type)
  | ok (out : α)
  | agentUnavailable (lastError : String)
deriving DecidableEq, Repr

/-- The error message recorded for a failed provider attempt. -/
def attemptError {α : Type} : ProviderOutcome α → String
  | .timeout => "timeout"
  | .failure e => e
  | .success _ => ""

/-- Modelled from the spec: the Orchestrator retry loop of §4.3, absent from
the source files.  `fuel` is the number of attempts still permitted; each
attempt appends one log record, success or failure; when the last permitted
attempt fails the result is a typed `AgentUnavailable` carrying that
attempt's error. -/
def invokeGo {α : Type} (agentKind : String) (provider : Nat → ProviderOutcome α)
    (attempt : Nat) (fuel : Nat) (log : List LogRecord) :
    InvokeOutcome α × List LogRecord :=
  match fuel with
  | 0 => (InvokeOutcome.agentUnavailable "no attempts permitted", log)
  | fuelLeft + 1 =>
      match provider attempt with
      | .success out =>
          (InvokeOutcome.ok out, log ++ [⟨agentKind, attempt, true⟩])
      | bad =>
          let log2 := log ++ [⟨agentKind, attempt, false⟩]
          if fuelLeft = 0 then
            (InvokeOutcome.agentUnavailable (attemptError bad), log2)
          else
            invokeGo agentKind provider (attempt + 1) fuelLeft log2

/-- Modelled from the spec: `invoke(agentKind, promptContext)` of §4.3 with
up to `maxRetries` retries after the first attempt (default 2). -/
def invoke {α : Type} (agentKind : String) (provider : Nat → ProviderOutcome α)
    (maxRetries : Nat) : InvokeOutcome α × List LogRecord :=
  invokeGo agentKind provider 0 (maxRetries + 1) []

/-! ## Capture persistence -/

/-- One capture session record (spec §3): the parsing request, the count and
ids of the tasks it spawned, a confidence score and an optional summary. -/
structure CaptureSession where
  id : String
  transcript : String
  taskCount : Nat
  taskIds : List String
  confidenceScore : ℚ
  summary : Option String
deriving DecidableEq, Repr

/-- A draft task produced by the Capture Agent (spec §4.4). -/
structure DraftTask where
  title : String
  description : Option String
  domain : TaskDomain
  priorityHint : Priority
  dueDate : Option Int
  estimatedDurationMin : Option Nat
  requiresCalendarBlock : Bool
deriving DecidableEq, Repr

/-- The durable store visible to the capture flow: capture sessions and
tasks (spec §6, Task Record Store). -/
structure Store where
  sessions : List CaptureSession
  tasks : List Task
deriving DecidableEq, Repr

/-- Error kinds of the capture persistence path (spec §7). -/
inductive CaptureError
  | storeUnavailable
deriving DecidableEq, Repr

/-- Modelled from the spec: a draft persisted as a task in `captured` state
(spec §4.4), carrying its capture-session reference in the AI metadata. -/
def draftToCapturedTask (sessionId : String) (idx : Nat) (d : DraftTask) : Task where
  id := sessionId ++ "-task-" ++ toString idx
  userId := ""
  title := d.title
  description := d.description
  domain := d.domain
  status := TaskStatus.captured
  priority := d.priorityHint
  priorityScore := 0
  importance := 3
  urgency := 3
  dueDate := d.dueDate
  estimatedDurationMin := d.estimatedDurationMin
  createdAt := 0
  updatedAt := 0
  source := "voice"
  requiresCalendarBlock := d.requiresCalendarBlock
  linkedCalendarEventId := none
  linkedEmailThreadId := none
  aiMetadata := [("capture_session_id", sessionId)]
  subtasks := []

/-- Modelled from the spec: each persisted draft is advanced from `captured`
to `parsed` through the lifecycle controller (spec §4.4); a rejected
transition would leave the task as created. -/
def advanceToParsed (t : Task) : Task :=
  match applyTransition t TaskStatus.parsed with
  | .ok t2 => t2
  | .error _ => t

/-- The tasks a capture session persists, one per draft starting at index
`idx`: each created in `captured` state and advanced to `parsed`. -/
def capturedTasksFrom (sessionId : String) (idx : Nat) : List DraftTask → List Task
  | [] => []
  | d :: ds =>
      advanceToParsed (draftToCapturedTask sessionId idx d)
        :: capturedTasksFrom sessionId (idx + 1) ds

/-- The tasks a capture session persists: one per draft, created in
`captured` state and advanced to `parsed`. -/
def capturedTasks (sessionId : String) (drafts : List DraftTask) : List Task :=
  capturedTasksFrom sessionId 0 drafts

/-- The session record a capture request persists. -/
def captureSessionRecord (sessionId transcript : String) (drafts : List DraftTask)
    (conf : ℚ) (summary : Option String) : CaptureSession where
  id := sessionId
  transcript := transcript
  taskCount := drafts.length
  taskIds := (capturedTasks sessionId drafts).map Task.id
  confidenceScore := conf
  summary := summary

/-- Modelled from the spec: the atomic persistence step of §4.4 / §6 —
session record and all its tasks are stored through one atomic multi-row
upsert, so either every row is written or the store is returned unchanged
together with the error. -/
def runCapture (st : Store) (sessionId transcript : String)
    (drafts : List DraftTask) (conf : ℚ) (summary : Option String)
    (storeAvailable : Bool) : Option CaptureError × Store :=
  if storeAvailable then
    (none,
      { sessions := st.sessions ++ [captureSessionRecord sessionId transcript drafts conf summary]
        tasks := st.tasks ++ capturedTasks sessionId drafts })
  else
    (some CaptureError.storeUnavailable, st)

/-! ## Client response mapping (`src/mobile/src/services/api.ts`) -/

/-- JavaScript nullish coalescing `a ?? b` on optional values. -/
def coalesce {α : Type} : Option α → Option α → Option α
  | some x, _ => some x
  | none, b => b

/-- A raw task object of the `/recommendations/what-now` server payload, as
read by `mapTask` in `APIService.getWhatNowRecommendations`
(`src/mobile/src/services/api.ts`): every field the mapping consults, with
both the snake_case and the camelCase variant where the code tries both. -/
structure RawTaskPayload where
  id : String
  user_id : Option String
  userId : Option String
  title : String
  description : Option String
  domain : TaskDomain
  status : TaskStatus
  priority : Priority
  priority_score : Option ℚ
  priorityScore : Option ℚ
  importance : Option Nat
  urgency : Option Nat
  due_date : Option Int
  dueDate : Option Int
  estimated_duration_min : Option Nat
  estimatedDurationMin : Option Nat
  created_at : Option Int
  createdAt : Option Int
  updated_at : Option Int
  updatedAt : Option Int
  source : Option String
  requires_calendar_block : Option Bool
  requiresCalendarBlock : Option Bool
  linked_calendar_event_id : Option String
  linkedCalendarEventId : Option String
  linked_email_thread_id : Option String
  linkedEmailThreadId : Option String
  ai_metadata : Option (List (String × String))
  aiMetadata : Option (List (String × String))
  subtasks : Option (List SubTask)
deriving DecidableEq, Repr

/-- The task object produced by `mapTask` in
`APIService.getWhatNowRecommendations` (`src/mobile/src/services/api.ts`),
field for field. -/
structure MappedTask where
  id : String
  userId : Option String
  title : String
  description : Option String
  domain : TaskDomain
  status : TaskStatus
  priority : Priority
  priorityScore : ℚ
  importance : Nat
  urgency : Nat
  dueDate : Option Int
  estimatedDurationMin : Option Nat
  createdAt : Option Int
  updatedAt : Option Int
  source : String
  requiresCalendarBlock : Bool
  linkedCalendarEventId : Option String
  linkedEmailThreadId : Option String
  aiMetadata : List (String × String)
  subtasks : List SubTask
deriving DecidableEq, Repr

/-- The body of `mapTask` (`src/mobile/src/services/api.ts`) on a non-null
payload: each field is the snake_case value, falling back to the camelCase
value, falling back to the fixed default where the code supplies one. -/
def mapTaskFields (t : RawTaskPayload) : MappedTask where
  id := t.id
  userId := coalesce t.user_id t.userId
  title := t.title
  description := t.description
  domain := t.domain
  status := t.status
  priority := t.priority
  priorityScore := (coalesce t.priority_score t.priorityScore).getD 0
  importance := t.importance.getD 3
  urgency := t.urgency.getD 3
  dueDate := coalesce t.due_date t.dueDate
  estimatedDurationMin := coalesce t.estimated_duration_min t.estimatedDurationMin
  createdAt := coalesce t.created_at t.createdAt
  updatedAt := coalesce t.updated_at t.updatedAt
  source := t.source.getD "unknown"
  requiresCalendarBlock := (coalesce t.requires_calendar_block t.requiresCalendarBlock).getD false
  linkedCalendarEventId := coalesce t.linked_calendar_event_id t.linkedCalendarEventId
  linkedEmailThreadId := coalesce t.linked_email_thread_id t.linkedEmailThreadId
  aiMetadata := (coalesce t.ai_metadata t.aiMetadata).getD []
  subtasks := t.subtasks.getD []

/-- `mapTask` (`src/mobile/src/services/api.ts`): `undefined` for a null
payload, otherwise the mapped fields. -/
def mapTask (t : Option RawTaskPayload) : Option MappedTask :=
  t.map mapTaskFields

/-- A raw recommendation entry of the server payload, as read by
`APIService.getWhatNowRecommendations`. -/
structure RawRecommendation where
  task : Option RawTaskPayload
  reason : Option String
  estimatedTime : Option ℚ
  estimated_time : Option ℚ
  confidence : Option ℚ
deriving DecidableEq, Repr

/-- The raw `/recommendations/what-now` response body, as read by
`APIService.getWhatNowRecommendations`. -/
structure RawWhatNowPayload where
  recommendations : Option (List RawRecommendation)
  reasoning : Option String
  context_summary : Option String
  contextSummary : Option String
deriving DecidableEq, Repr

/-- A recommendation entry after the client mapping. -/
structure MappedRecommendation where
  task : Option MappedTask
  reason : String
  estimatedTime : ℚ
  confidence : ℚ
deriving DecidableEq, Repr

/-- The `WhatNowResponse` the client returns after mapping. -/
structure MappedWhatNowResponse where
  recommendations : List MappedRecommendation
  reasoning : String
  contextSummary : String
deriving DecidableEq, Repr

/-- The per-entry mapping inside `APIService.getWhatNowRecommendations`:
`reason || ''`, `estimatedTime ?? estimated_time ?? 30`,
`confidence ?? 0.5`. -/
def mapRecommendation (r : RawRecommendation) : MappedRecommendation where
  task := mapTask r.task
  reason := r.reason.getD ""
  estimatedTime := (coalesce r.estimatedTime r.estimated_time).getD 30
  confidence := r.confidence.getD (1/2)

/-- The whole-response mapping of `APIService.getWhatNowRecommendations`
(`src/mobile/src/services/api.ts`): `(data.recommendations || []).map(...)`,
`reasoning || ''`, `context_summary ?? contextSummary ?? ''`. -/
def mapWhatNowResponse (data : RawWhatNowPayload) : MappedWhatNowResponse where
  recommendations := (data.recommendations.getD []).map mapRecommendation
  reasoning := data.reasoning.getD ""
  contextSummary := (coalesce data.context_summary data.contextSummary).getD ""

/-! ## Assistant screen minutes parsing (`src/unnamed/part_008`) -/

/-- Decimal digit test. -/
def isDigitChar (c : Char) : Bool :=
  decide ('0'.toNat ≤ c.toNat) && decide (c.toNat ≤ '9'.toNat)

/-- Value of the longest leading digit run, `none` when it is empty —
the digit-consuming core of JavaScript `parseInt(s, 10)`. -/
def parseDigits (cs : List Char) : Option Nat :=
  let ds := cs.takeWhile isDigitChar
  if ds.isEmpty then none
  else some (ds.foldl (fun acc c => acc * 10 + (c.toNat - '0'.toNat)) 0)

/-- JavaScript `parseInt(s, 10)`: skip leading whitespace, read an optional
sign and the longest digit prefix; `none` stands for `NaN`. -/
def jsParseInt10 (s : String) : Option Int :=
  let cs := s.data.dropWhile Char.isWhitespace
  match cs with
  | '-' :: rest => (parseDigits rest).map fun n => -(n : Int)
  | '+' :: rest => (parseDigits rest).map fun n => (n : Int)
  | _ => (parseDigits cs).map fun n => (n : Int)

/-- `parseInt(minutes, 10) || undefined` from `handleGetRecommendations` and
`fetchRecommendations` in the assistant screens (`src/unnamed/part_008`):
`NaN` and `0` are falsy, so both collapse to `undefined`. -/
def availableDurationOfMinutes (minutes : String) : Option Int :=
  match jsParseInt10 minutes with
  | none => none
  | some 0 => none
  | some n => some n

/-! ## Task store (`src/unnamed/part_014`, `useTaskStore`) -/

/-- The slice of the task store state the update and delete operations
read and write: the task list, the loading flag and the error field. -/
structure TaskStoreState where
  tasks : List Task
  isLoading : Bool
  error : Option String
deriving DecidableEq, Repr

/-- JavaScript `error.message || fallback`: a missing or empty message is
replaced by the fallback text. -/
def messageOr (message : Option String) (fallback : String) : String :=
  match message with
  | some s => if s = "" then fallback else s
  | none => fallback

/-- `updateTask` of `useTaskStore` (`src/unnamed/part_014`): set loading and
clear the error, then on API success replace exactly the matching task in
place and clear loading; on API failure clear loading and set the error
message, leaving the task list untouched. -/
def updateTaskRun (st : TaskStoreState) (taskId : String)
    (apiResult : Except (Option String) Task) : TaskStoreState :=
  let st1 : TaskStoreState := { st with isLoading := true, error := none }
  match apiResult with
  | .ok updatedTask =>
      { st1 with
        tasks := st1.tasks.map fun task => if task.id = taskId then updatedTask else task
        isLoading := false }
  | .error message =>
      { st1 with
        isLoading := false
        error := some (messageOr message "Failed to update task") }

/-- `deleteTask` of `useTaskStore` (`src/unnamed/part_014`): set loading and
clear the error, then on API success drop the tasks with the given id and
clear loading; on API failure clear loading and set the error message,
leaving the task list untouched. -/
def deleteTaskRun (st : TaskStoreState) (taskId : String)
    (apiResult : Except (Option String) Unit) : TaskStoreState :=
  let st1 : TaskStoreState := { st with isLoading := true, error := none }
  match apiResult with
  | .ok _ =>
      { st1 with
        tasks := st1.tasks.filter fun task => task.id ≠ taskId
        isLoading := false }
  | .error message =>
      { st1 with
        isLoading := false
        error := some (messageOr message "Failed to delete task") }

/-! ## Sample values used by the witness theorems -/

/-- A concrete completed task. -/
def sampleDoneTask : Task where
  id := "t1"
  userId := "u1"
  title := "File the insurance form"
  description := none
  domain := TaskDomain.personal
  status := TaskStatus.done
  priority := Priority.medium
  priorityScore := 0
  importance := 3
  urgency := 3
  dueDate := none
  estimatedDurationMin := some 15
  createdAt := 0
  updatedAt := 0
  source := "manual"
  requiresCalendarBlock := false
  linkedCalendarEventId := none
  linkedEmailThreadId := none
  aiMetadata := []
  subtasks := []

/-- A concrete overdue open task (due at time 0). -/
def sampleOverdueTask : Task :=
  { sampleDoneTask with
    id := "t2"
    status := TaskStatus.triaged
    dueDate := some 0 }

/-- A concrete short open task (5 minutes). -/
def sampleShortTask : Task :=
  { sampleDoneTask with
    id := "t3"
    status := TaskStatus.triaged
    estimatedDurationMin := some 5 }

/-- A concrete long open task (90 minutes). -/
def sampleLongTask : Task :=
  { sampleDoneTask with
    id := "t4"
    status := TaskStatus.triaged
    domain := TaskDomain.job
    estimatedDurationMin := some 90 }

/-- A concrete open task with no duration estimate. -/
def sampleNoEstimateTask : Task :=
  { sampleDoneTask with
    id := "t5"
    status := TaskStatus.triaged
    estimatedDurationMin := none }

/-- A concrete recommendation context: 20 minutes available, low energy, at
home, at time 100. -/
def sampleCtx : RecContext where
  now := 100
  availableDurationMin := some 20
  energyLevel := some EnergyLevel.low
  locationKind := some LocationKind.home

/-! ## Ranking-order helper lemmas -/

theorem mem_insertRanked (before : Task → Task → Bool) (a t : Task)
    (l : List Task) : t ∈ insertRanked before a l ↔ t = a ∨ t ∈ l := by
  induction l with
  | nil => simp [insertRanked]
  | cons x xs ih =>
      simp only [insertRanked]
      split <;> (simp only [List.mem_cons, ih]; try tauto)

theorem mem_sortRanked (before : Task → Task → Bool) (t : Task)
    (l : List Task) : t ∈ sortRanked before l ↔ t ∈ l := by
  induction l with
  | nil => simp [sortRanked]
  | cons x xs ih => simp [sortRanked, mem_insertRanked, ih]

theorem candidate_duration_fits (ctx : RecContext) (tasks : List Task)
    (t : Task) (ht : t ∈ candidateTasks ctx tasks) :
    durationFits ctx.availableDurationMin t = true := by
  have h := (List.mem_filter.mp ht).2
  simp only [Bool.and_eq_true] at h
  exact h.2

/-! ## Claim theorems -/

/-- C1: any attempted status change not in the lifecycle table fails with an
`InvalidTransition` error naming source and target (hence yields no updated
task), the terminal states done and cancelled admit no outgoing transition
at all, and every status change reachable from the task detail screen on a
done task is rejected, leaving the status `done`. -/
theorem C1_lifecycle_terminal (t : Task) (tgt : TaskStatus)
    (hbad : allowedTransition t.status tgt = false) :
    applyTransition t tgt
        = Except.error (TransitionError.invalidTransition t.status tgt)
      ∧ (∀ u, allowedTransition TaskStatus.done u = false)
      ∧ (∀ u, allowedTransition TaskStatus.cancelled u = false)
      ∧ (t.status = TaskStatus.done →
          ∀ u ∈ taskDetailStatusRequests t,
            applyTransition t u
              = Except.error (TransitionError.invalidTransition TaskStatus.done u)) := by
  have hdoneAll : ∀ u, allowedTransition TaskStatus.done u = false := by decide
  have hcanAll : ∀ u, allowedTransition TaskStatus.cancelled u = false := by decide
  refine ⟨by simp [applyTransition, hbad], hdoneAll, hcanAll, ?_⟩
  intro hdone u _
  simp [applyTransition, hdone, hdoneAll u]

theorem C1_lifecycle_terminal_witness :
    applyTransition sampleDoneTask TaskStatus.in_progress
      = Except.error
          (TransitionError.invalidTransition TaskStatus.done TaskStatus.in_progress) :=
  (C1_lifecycle_terminal sampleDoneTask TaskStatus.in_progress (by decide)).1

/-- C2: the score is monotonically non-decreasing in urgency and in
importance, all other inputs and the context time held fixed, and two calls
with identical task inputs and context time return the same numeric score
and tier. -/
theorem C2_score_monotone (t : Task) (now : Int) (u1 u2 i1 i2 : Nat)
    (hu : u1 ≤ u2) (hi : i1 ≤ i2) :
    scoreValue defaultScoreConfig { t with urgency := u1 } now
        ≤ scoreValue defaultScoreConfig { t with urgency := u2 } now
      ∧ scoreValue defaultScoreConfig { t with importance := i1 } now
          ≤ scoreValue defaultScoreConfig { t with importance := i2 } now
      ∧ (∀ t2 now2, t2 = t → now2 = now →
          score defaultScoreConfig t2 now2 = score defaultScoreConfig t now) := by
  refine ⟨?_, ?_, ?_⟩
  · simp only [scoreValue, urgencyComponent, defaultScoreConfig]
    gcongr
  · simp only [scoreValue, importanceComponent, defaultScoreConfig]
    gcongr
  · intro t2 now2 h1 h2
    rw [h1, h2]

theorem C2_score_monotone_witness :
    scoreValue defaultScoreConfig { sampleShortTask with urgency := 2 } 100
        ≤ scoreValue defaultScoreConfig { sampleShortTask with urgency := 4 } 100
      ∧ scoreValue defaultScoreConfig { sampleShortTask with importance := 1 } 100
          ≤ scoreValue defaultScoreConfig { sampleShortTask with importance := 5 } 100
      ∧ (∀ t2 now2, t2 = sampleShortTask → now2 = (100 : Int) →
          score defaultScoreConfig t2 now2 = score defaultScoreConfig sampleShortTask 100) :=
  C2_score_monotone sampleShortTask 100 2 4 1 5 (by decide) (by decide)

/-- C3: a task whose due date lies strictly before the context time is
assigned a tier of rank at least high, whatever its importance and urgency
inputs. -/
theorem C3_overdue_tier_high (cfg : ScoreConfig) (t : Task) (now due : Int)
    (hdue : t.dueDate = some due) (hlt : due < now) :
    3 ≤ priorityRank (score cfg t now).2 := by
  have hov : isOverdue t now = true := by simp [isOverdue, hdue, hlt]
  simp only [score, scoreTier, hov, if_true]
  generalize tierOfScore (scoreValue cfg t now) = b
  cases b <;> decide

theorem C3_overdue_tier_high_witness :
    3 ≤ priorityRank (score defaultScoreConfig sampleOverdueTask 100).2 :=
  C3_overdue_tier_high defaultScoreConfig sampleOverdueTask 100 0 rfl (by decide)

/-- C4: when an available duration is supplied, no recommended task has an
estimated duration exceeding it; an open task with no estimate still enters
the candidate set; and a task lacking an estimate scores exactly the fixed
penalty below an otherwise-equal task that has one. -/
theorem C4_duration_filter (cfg : ScoreConfig) (ctx : RecContext)
    (tasks : List Task) (k : Nat) (d : Int)
    (havail : ctx.availableDurationMin = some d) :
    (∀ r ∈ (recommendNow cfg ctx tasks k).recommendations,
        ∀ e, r.task.estimatedDurationMin = some e → (e : Int) ≤ d)
      ∧ (∀ t ∈ tasks, t.estimatedDurationMin = none →
          isTerminalStatus t.status = false → t ∈ candidateTasks ctx tasks)
      ∧ (∀ (t : Task) (e : Nat),
          scoreValue cfg { t with estimatedDurationMin := some e } ctx.now
              = scoreValue cfg { t with estimatedDurationMin := none } ctx.now →
            adjustedScore cfg ctx { t with estimatedDurationMin := none }
              = adjustedScore cfg ctx { t with estimatedDurationMin := some e }
                  - cfg.noEstimatePenalty) := by
  refine ⟨?_, ?_, ?_⟩
  · intro r hr e he
    by_cases hc : (candidateTasks ctx tasks).isEmpty
    · simp [recommendNow, hc] at hr
    · simp only [recommendNow, hc, Bool.false_eq_true, if_false, List.mem_map] at hr
      rcases hr with ⟨t2, ht2, rfl⟩
      have h1 : t2 ∈ sortRanked (ranksBefore cfg ctx) (candidateTasks ctx tasks) :=
        List.take_subset _ _ ht2
      have h2 : t2 ∈ candidateTasks ctx tasks := (mem_sortRanked _ _ _).mp h1
      have h3 := candidate_duration_fits ctx tasks t2 h2
      rw [havail] at h3
      unfold durationFits at h3
      rw [he] at h3
      simpa using h3
  · intro t ht hnone hterm
    refine List.mem_filter.mpr ⟨ht, ?_⟩
    rw [havail]
    simp [hterm, durationFits, hnone]
  · intro t e hbase
    simp only [adjustedScore] at hbase ⊢
    simp only [Option.isNone_none, Option.isNone_some]
    rw [hbase]
    simp

theorem C4_duration_filter_witness :
    (∀ r ∈ (recommendNow defaultScoreConfig sampleCtx
        [sampleShortTask, sampleLongTask, sampleNoEstimateTask, sampleDoneTask]
        3).recommendations,
      ∀ e, r.task.estimatedDurationMin = some e → (e : Int) ≤ 20)
    ∧ (∀ t ∈ [sampleShortTask, sampleLongTask, sampleNoEstimateTask, sampleDoneTask],
        t.estimatedDurationMin = none → isTerminalStatus t.status = false →
          t ∈ candidateTasks sampleCtx
            [sampleShortTask, sampleLongTask, sampleNoEstimateTask, sampleDoneTask])
    ∧ (∀ (t : Task) (e : Nat),
        scoreValue defaultScoreConfig { t with estimatedDurationMin := some e } sampleCtx.now
            = scoreValue defaultScoreConfig { t with estimatedDurationMin := none } sampleCtx.now →
          adjustedScore defaultScoreConfig sampleCtx { t with estimatedDurationMin := none }
            = adjustedScore defaultScoreConfig sampleCtx { t with estimatedDurationMin := some e }
                - defaultScoreConfig.noEstimatePenalty) :=
  C4_duration_filter defaultScoreConfig sampleCtx
    [sampleShortTask, sampleLongTask, sampleNoEstimateTask, sampleDoneTask] 3 20 rfl

/-- C5: when the candidate set is empty, `recommendNow` returns the empty
recommendation list together with the fixed non-empty no-actionable-tasks
summary rather than an error, and the client mapping of a payload without
recommendations likewise yields an empty list. -/
theorem C5_empty_candidates (cfg : ScoreConfig) (ctx : RecContext)
    (tasks : List Task) (k : Nat)
    (hc : candidateTasks ctx tasks = []) :
    recommendNow cfg ctx tasks k =
        { recommendations := []
          reasoning := ""
          contextSummary := noActionableSummary }
      ∧ noActionableSummary ≠ ""
      ∧ (∀ data : RawWhatNowPayload, data.recommendations = none →
          (mapWhatNowResponse data).recommendations = []) := by
  refine ⟨by simp [recommendNow, hc], by decide, ?_⟩
  intro data h
  simp [mapWhatNowResponse, h]

theorem invokeGo_succ {α : Type} (ak : String) (p : Nat → ProviderOutcome α)
    (attempt fuelLeft : Nat) (log : List LogRecord) :
    invokeGo ak p attempt (fuelLeft + 1) log =
      match p attempt with
      | .success out => (InvokeOutcome.ok out, log ++ [⟨ak, attempt, true⟩])
      | bad =>
          let log2 := log ++ [⟨ak, attempt, false⟩]
          if fuelLeft = 0 then
            (InvokeOutcome.agentUnavailable (attemptError bad), log2)
          else
            invokeGo ak p (attempt + 1) fuelLeft log2 := rfl

/-- C6: an Orchestrator invocation whose provider times out on the first two
attempts and succeeds on the third returns the successful structured result
and appends exactly three interaction-log records; a provider failing on all
three permitted attempts yields a typed `AgentUnavailable` result carrying
the last error, again with one log record per attempt. -/
theorem C6_orchestrator_retries {α : Type} (ak : String) (out : α)
    (provider : Nat → ProviderOutcome α)
    (h0 : provider 0 = ProviderOutcome.timeout)
    (h1 : provider 1 = ProviderOutcome.timeout)
    (h2 : provider 2 = ProviderOutcome.success out) :
    invoke ak provider 2
        = (InvokeOutcome.ok out,
            [⟨ak, 0, false⟩, ⟨ak, 1, false⟩, ⟨ak, 2, true⟩])
      ∧ (invoke ak provider 2).2.length = 3
      ∧ (∀ (provider2 : Nat → ProviderOutcome α) (e : String),
          provider2 0 = ProviderOutcome.failure e →
          provider2 1 = ProviderOutcome.failure e →
          provider2 2 = ProviderOutcome.failure e →
          invoke ak provider2 2
            = (InvokeOutcome.agentUnavailable e,
                [⟨ak, 0, false⟩, ⟨ak, 1, false⟩, ⟨ak, 2, false⟩])) := by
  have main :
      invoke ak provider 2
        = (InvokeOutcome.ok out,
            [⟨ak, 0, false⟩, ⟨ak, 1, false⟩, ⟨ak, 2, true⟩]) := by
    show invokeGo ak provider 0 (2 + 1) [] = _
    rw [invokeGo_succ, h0]
    show invokeGo ak provider 1 (1 + 1) _ = _
    rw [invokeGo_succ, h1]
    show invokeGo ak provider 2 (0 + 1) _ = _
    rw [invokeGo_succ, h2]
    rfl
  refine ⟨main, by rw [main]; rfl, ?_⟩
  intro provider2 e g0 g1 g2
  show invokeGo ak provider2 0 (2 + 1) [] = _
  rw [invokeGo_succ, g0]
  show invokeGo ak provider2 1 (1 + 1) _ = _
  rw [invokeGo_succ, g1]
  show invokeGo ak provider2 2 (0 + 1) _ = _
  rw [invokeGo_succ, g2]
  rfl

theorem C6_orchestrator_retries_witness :
    invoke "capture"
        (fun n => match n with
          | 0 => ProviderOutcome.timeout
          | 1 => ProviderOutcome.timeout
          | _ => ProviderOutcome.success "two draft tasks")
        2
      = (InvokeOutcome.ok "two draft tasks",
          [⟨"capture", 0, false⟩, ⟨"capture", 1, false⟩, ⟨"capture", 2, true⟩])
      ∧ (invoke "capture"
          (fun n => match n with
            | 0 => ProviderOutcome.timeout
            | 1 => ProviderOutcome.timeout
            | _ => ProviderOutcome.success "two draft tasks")
          2).2.length = 3
      ∧ (∀ (provider2 : Nat → ProviderOutcome String) (e : String),
          provider2 0 = ProviderOutcome.failure e →
          provider2 1 = ProviderOutcome.failure e →
          provider2 2 = ProviderOutcome.failure e →
          invoke "capture" provider2 2
            = (InvokeOutcome.agentUnavailable e,
                [⟨"capture", 0, false⟩, ⟨"capture", 1, false⟩, ⟨"capture", 2, false⟩])) :=
  C6_orchestrator_retries "capture" "two draft tasks"
    (fun n => match n with
      | 0 => ProviderOutcome.timeout
      | 1 => ProviderOutcome.timeout
      | _ => ProviderOutcome.success "two draft tasks")
    rfl rfl rfl

theorem length_capturedTasksFrom (sessionId : String) (idx : Nat)
    (drafts : List DraftTask) :
    (capturedTasksFrom sessionId idx drafts).length = drafts.length := by
  induction drafts generalizing idx with
  | nil => rfl
  | cons d ds ih => simp [capturedTasksFrom, ih]

theorem capturedTasksFrom_parsed (sessionId : String) (idx : Nat)
    (drafts : List DraftTask) :
    ∀ t ∈ capturedTasksFrom sessionId idx drafts,
      t.status = TaskStatus.parsed
        ∧ ("capture_session_id", sessionId) ∈ t.aiMetadata := by
  induction drafts generalizing idx with
  | nil => simp [capturedTasksFrom]
  | cons d ds ih =>
      intro t ht
      simp only [capturedTasksFrom, List.mem_cons] at ht
      rcases ht with rfl | ht
      · exact ⟨rfl, by simp [advanceToParsed, applyTransition, allowedTransition,
          draftToCapturedTask]⟩
      · exact ih (idx + 1) t ht

/-- C7: a capture request persists its session record and its tasks in one
atomic step — on failure the store is returned unchanged, and on success the
store gains exactly the session record plus one task per draft, the session's
task count equals the number of tasks actually persisted, and every persisted
task was created in `captured` state, advanced to `parsed` through the
lifecycle controller, and carries its session reference. -/
theorem C7_capture_atomic (st : Store) (sessionId transcript : String)
    (drafts : List DraftTask) (conf : ℚ) (summary : Option String) :
    ((runCapture st sessionId transcript drafts conf summary false).2 = st
        ∧ (runCapture st sessionId transcript drafts conf summary false).1
            = some CaptureError.storeUnavailable)
      ∧ ((runCapture st sessionId transcript drafts conf summary true).1 = none
        ∧ (runCapture st sessionId transcript drafts conf summary true).2.sessions
            = st.sessions ++ [captureSessionRecord sessionId transcript drafts conf summary]
        ∧ (runCapture st sessionId transcript drafts conf summary true).2.tasks
            = st.tasks ++ capturedTasks sessionId drafts
        ∧ (captureSessionRecord sessionId transcript drafts conf summary).taskCount
            = (capturedTasks sessionId drafts).length
        ∧ (∀ t ∈ capturedTasks sessionId drafts,
            t.status = TaskStatus.parsed
              ∧ ("capture_session_id", sessionId) ∈ t.aiMetadata)) := by
  refine ⟨⟨rfl, rfl⟩, rfl, rfl, rfl, ?_, ?_⟩
  · show drafts.length = _
    rw [capturedTasks, length_capturedTasksFrom]
  · exact capturedTasksFrom_parsed sessionId 0 drafts

theorem C7_capture_atomic_witness :
    ((runCapture ⟨[], []⟩ "s1" "book vaccines and schedule a meeting"
          [⟨"Book vaccines", none, TaskDomain.family, Priority.high, none, none, true⟩,
            ⟨"Schedule accountant meeting", none, TaskDomain.job, Priority.medium, none, none, true⟩]
          (9/10) none false).2 = (⟨[], []⟩ : Store)
        ∧ (runCapture ⟨[], []⟩ "s1" "book vaccines and schedule a meeting"
            [⟨"Book vaccines", none, TaskDomain.family, Priority.high, none, none, true⟩,
              ⟨"Schedule accountant meeting", none, TaskDomain.job, Priority.medium, none, none, true⟩]
            (9/10) none false).1 = some CaptureError.storeUnavailable)
      ∧ ((runCapture ⟨[], []⟩ "s1" "book vaccines and schedule a meeting"
            [⟨"Book vaccines", none, TaskDomain.family, Priority.high, none, none, true⟩,
              ⟨"Schedule accountant meeting", none, TaskDomain.job, Priority.medium, none, none, true⟩]
            (9/10) none true).1 = none
        ∧ (runCapture ⟨[], []⟩ "s1" "book vaccines and schedule a meeting"
            [⟨"Book vaccines", none, TaskDomain.family, Priority.high, none, none, true⟩,
              ⟨"Schedule accountant meeting", none, TaskDomain.job, Priority.medium, none, none, true⟩]
            (9/10) none true).2.sessions
            = [] ++ [captureSessionRecord "s1" "book vaccines and schedule a meeting"
                [⟨"Book vaccines", none, TaskDomain.family, Priority.high, none, none, true⟩,
                  ⟨"Schedule accountant meeting", none, TaskDomain.job, Priority.medium, none, none, true⟩]
                (9/10) none]
        ∧ (runCapture ⟨[], []⟩ "s1" "book vaccines and schedule a meeting"
            [⟨"Book vaccines", none, TaskDomain.family, Priority.high, none, none, true⟩,
              ⟨"Schedule accountant meeting", none, TaskDomain.job, Priority.medium, none, none, true⟩]
            (9/10) none true).2.tasks
            = [] ++ capturedTasks "s1"
                [⟨"Book vaccines", none, TaskDomain.family, Priority.high, none, none, true⟩,
                  ⟨"Schedule accountant meeting", none, TaskDomain.job, Priority.medium, none, none, true⟩]
        ∧ (captureSessionRecord "s1" "book vaccines and schedule a meeting"
              [⟨"Book vaccines", none, TaskDomain.family, Priority.high, none, none, true⟩,
                ⟨"Schedule accountant meeting", none, TaskDomain.job, Priority.medium, none, none, true⟩]
              (9/10) none).taskCount
            = (capturedTasks "s1"
                [⟨"Book vaccines", none, TaskDomain.family, Priority.high, none, none, true⟩,
                  ⟨"Schedule accountant meeting", none, TaskDomain.job, Priority.medium, none, none, true⟩]).length
        ∧ (∀ t ∈ capturedTasks "s1"
              [⟨"Book vaccines", none, TaskDomain.family, Priority.high, none, none, true⟩,
                ⟨"Schedule accountant meeting", none, TaskDomain.job, Priority.medium, none, none, true⟩],
            t.status = TaskStatus.parsed
              ∧ ("capture_session_id", "s1") ∈ t.aiMetadata)) :=
  C7_capture_atomic ⟨[], []⟩ "s1" "book vaccines and schedule a meeting"
    [⟨"Book vaccines", none, TaskDomain.family, Priority.high, none, none, true⟩,
      ⟨"Schedule accountant meeting", none, TaskDomain.job, Priority.medium, none, none, true⟩]
    (9/10) none

theorem C5_empty_candidates_witness :
    recommendNow defaultScoreConfig sampleCtx [sampleDoneTask] 3 =
        { recommendations := []
          reasoning := ""
          contextSummary := noActionableSummary }
      ∧ noActionableSummary ≠ ""
      ∧ (∀ data : RawWhatNowPayload, data.recommendations = none →
          (mapWhatNowResponse data).recommendations = []) :=
  C5_empty_candidates defaultScoreConfig sampleCtx [sampleDoneTask] 3 (by decide)

/-- A raw task payload with every optional field absent. -/
def bareRawTask : RawTaskPayload where
  id := "t9"
  user_id := none
  userId := none
  title := "Renew passports"
  description := none
  domain := TaskDomain.family
  status := TaskStatus.triaged
  priority := Priority.high
  priority_score := none
  priorityScore := none
  importance := none
  urgency := none
  due_date := none
  dueDate := none
  estimated_duration_min := none
  estimatedDurationMin := none
  created_at := none
  createdAt := none
  updated_at := none
  updatedAt := none
  source := none
  requires_calendar_block := none
  requiresCalendarBlock := none
  linked_calendar_event_id := none
  linkedCalendarEventId := none
  linked_email_thread_id := none
  linkedEmailThreadId := none
  ai_metadata := none
  aiMetadata := none
  subtasks := none

/-- A raw recommendation entry with every optional field absent. -/
def bareRawRecommendation : RawRecommendation where
  task := some bareRawTask
  reason := none
  estimatedTime := none
  estimated_time := none
  confidence := none

/-- C8: the client mapping of a what-now response replaces missing server
fields by fixed defaults — priorityScore 0, importance and urgency 3,
requiresCalendarBlock false, aiMetadata the empty map, subtasks the empty
list, estimatedTime 30 and confidence 0.5 — so every mapped recommendation
carries numeric estimatedTime and confidence values. -/
theorem C8_mapping_defaults (t : RawTaskPayload) (r : RawRecommendation)
    (h1 : t.priority_score = none) (h2 : t.priorityScore = none)
    (h3 : t.importance = none) (h4 : t.urgency = none)
    (h5 : t.requires_calendar_block = none) (h6 : t.requiresCalendarBlock = none)
    (h7 : t.ai_metadata = none) (h8 : t.aiMetadata = none)
    (h9 : t.subtasks = none)
    (hA : r.estimatedTime = none) (hB : r.estimated_time = none)
    (hC : r.confidence = none) :
    (mapTaskFields t).priorityScore = 0
      ∧ (mapTaskFields t).importance = 3
      ∧ (mapTaskFields t).urgency = 3
      ∧ (mapTaskFields t).requiresCalendarBlock = false
      ∧ (mapTaskFields t).aiMetadata = []
      ∧ (mapTaskFields t).subtasks = []
      ∧ (mapRecommendation r).estimatedTime = 30
      ∧ (mapRecommendation r).confidence = 1/2 := by
  refine ⟨?_, ?_, ?_, ?_, ?_, ?_, ?_, ?_⟩ <;>
    simp [mapTaskFields, mapRecommendation, coalesce,
      h1, h2, h3, h4, h5, h6, h7, h8, h9, hA, hB, hC]

theorem C8_mapping_defaults_witness :
    (mapTaskFields bareRawTask).priorityScore = 0
      ∧ (mapTaskFields bareRawTask).importance = 3
      ∧ (mapTaskFields bareRawTask).urgency = 3
      ∧ (mapTaskFields bareRawTask).requiresCalendarBlock = false
      ∧ (mapTaskFields bareRawTask).aiMetadata = []
      ∧ (mapTaskFields bareRawTask).subtasks = []
      ∧ (mapRecommendation bareRawRecommendation).estimatedTime = 30
      ∧ (mapRecommendation bareRawRecommendation).confidence = 1/2 :=
  C8_mapping_defaults bareRawTask bareRawRecommendation
    rfl rfl rfl rfl rfl rfl rfl rfl rfl rfl rfl rfl

/-- C9: a minutes string whose `parseInt` value is `NaN` or `0` makes the
assistant screen send no duration constraint at all — the request field is
`undefined` — so the duration filter keeps every task whatever its estimated
duration. -/
theorem C9_falsy_minutes (s : String) (t : Task)
    (h : jsParseInt10 s = none ∨ jsParseInt10 s = some 0) :
    availableDurationOfMinutes s = none
      ∧ durationFits (availableDurationOfMinutes s) t = true := by
  have hnone : availableDurationOfMinutes s = none := by
    rcases h with h | h <;> simp [availableDurationOfMinutes, h]
  refine ⟨hnone, ?_⟩
  rw [hnone]
  cases t.estimatedDurationMin <;> rfl

theorem C9_falsy_minutes_witness :
    (availableDurationOfMinutes "0" = none
        ∧ durationFits (availableDurationOfMinutes "0") sampleLongTask = true)
      ∧ (availableDurationOfMinutes "soon" = none
        ∧ durationFits (availableDurationOfMinutes "soon") sampleLongTask = true) :=
  ⟨C9_falsy_minutes "0" sampleLongTask (Or.inr (by decide)),
    C9_falsy_minutes "soon" sampleLongTask (Or.inl (by decide))⟩

/-- C10: in the task store, a successful delete removes exactly the tasks
with the given id and keeps every other task; a successful update rewrites
the list pointwise, replacing only positions whose id matches and keeping
every other position unchanged; and an API failure leaves the task list
exactly as it was, setting only the error message (and clearing the loading
flag). -/
theorem C10_store_frame (st : TaskStoreState) (taskId : String)
    (updated : Task) (message : Option String) :
    ((∀ t ∈ (deleteTaskRun st taskId (Except.ok ())).tasks,
          t ∈ st.tasks ∧ t.id ≠ taskId)
      ∧ (∀ t ∈ st.tasks, t.id ≠ taskId →
          t ∈ (deleteTaskRun st taskId (Except.ok ())).tasks))
    ∧ ((updateTaskRun st taskId (Except.ok updated)).tasks.length
          = st.tasks.length
      ∧ (∀ i : Nat,
          ((updateTaskRun st taskId (Except.ok updated)).tasks[i]?
            = (st.tasks[i]?).map fun task =>
                if task.id = taskId then updated else task)))
    ∧ ((updateTaskRun st taskId (Except.error message)).tasks = st.tasks
      ∧ (updateTaskRun st taskId (Except.error message)).error
          = some (messageOr message "Failed to update task")
      ∧ (deleteTaskRun st taskId (Except.error message)).tasks = st.tasks
      ∧ (deleteTaskRun st taskId (Except.error message)).error
          = some (messageOr message "Failed to delete task")) := by
  refine ⟨⟨?_, ?_⟩, ⟨?_, ?_⟩, rfl, rfl, rfl, rfl⟩
  · intro t ht
    have h := List.mem_filter.mp ht
    refine ⟨h.1, ?_⟩
    simpa using h.2
  · intro t ht hne
    exact List.mem_filter.mpr ⟨ht, by simpa using hne⟩
  · simp [updateTaskRun]
  · intro i
    simp [updateTaskRun, List.getElem?_map]

theorem C10_store_frame_witness :
    ((∀ t ∈ (deleteTaskRun ⟨[sampleShortTask, sampleLongTask], false, none⟩
          "t3" (Except.ok ())).tasks,
          t ∈ [sampleShortTask, sampleLongTask] ∧ t.id ≠ "t3")
      ∧ (∀ t ∈ [sampleShortTask, sampleLongTask], t.id ≠ "t3" →
          t ∈ (deleteTaskRun ⟨[sampleShortTask, sampleLongTask], false, none⟩
            "t3" (Except.ok ())).tasks))
    ∧ ((updateTaskRun ⟨[sampleShortTask, sampleLongTask], false, none⟩
          "t3" (Except.ok sampleNoEstimateTask)).tasks.length
          = ([sampleShortTask, sampleLongTask] : List Task).length
      ∧ (∀ i : Nat,
          ((updateTaskRun ⟨[sampleShortTask, sampleLongTask], false, none⟩
              "t3" (Except.ok sampleNoEstimateTask)).tasks[i]?
            = (([sampleShortTask, sampleLongTask] : List Task)[i]?).map fun task =>
                if task.id = "t3" then sampleNoEstimateTask else task)))
    ∧ ((updateTaskRun ⟨[sampleShortTask, sampleLongTask], false, none⟩
          "t3" (Except.error (some "boom"))).tasks = [sampleShortTask, sampleLongTask]
      ∧ (updateTaskRun ⟨[sampleShortTask, sampleLongTask], false, none⟩
          "t3" (Except.error (some "boom"))).error
          = some (messageOr (some "boom") "Failed to update task")
      ∧ (deleteTaskRun ⟨[sampleShortTask, sampleLongTask], false, none⟩
          "t3" (Except.error (some "boom"))).tasks = [sampleShortTask, sampleLongTask]
      ∧ (deleteTaskRun ⟨[sampleShortTask, sampleLongTask], false, none⟩
          "t3" (Except.error (some "boom"))).error
          = some (messageOr (some "boom") "Failed to delete task")) :=
  C10_store_frame ⟨[sampleShortTask, sampleLongTask], false, none⟩ "t3"
    sampleNoEstimateTask (some "boom")

end PA
